import Mathlib

/-!
Shallow embedding of the offline-sync engine of the task-management backend
(`src/services/syncService.js` and `src/services/taskService.js`).

Modelling conventions:
* SQLite TEXT identifiers (uuids) and ISO-8601 timestamp strings are modelled
  as `Nat`: uuids are drawn from a fresh-id counter threaded through the state
  (`DB.nextId` models `uuidv4()`), and ISO strings compare lexicographically
  exactly as their time-points compare, so a totally ordered `Nat` is faithful.
* Each SQL table is a `List` of row structures; `WHERE` clauses become
  filters/finds over the list, `UPDATE ... WHERE` becomes a `map` that rewrites
  matching rows, `INSERT` appends.
* `new Date().toISOString()` is modelled by an explicit `now : Nat` argument;
  all wall-clock reads inside one batch step share that value.
* A JSON payload is a record of optional fields (`Payload`); the serialized
  TEXT column `sync_queue.data` is modelled by `RawData`, which either carries
  a parseable payload or is a malformed string (on which `JSON.parse` throws).
* `md5(JSON.stringify(...))` of the checksum helper is abstracted as a
  function parameter `h` applied to the canonically sorted entry list.
-/

namespace SyncService

/-- Operation kinds accepted by the sync queue (`'create' | 'update' | 'delete'`). -/
inductive Op where
  | create
  | update
  | delete
deriving DecidableEq, Repr

/-- CONFLICT_PRIORITY from challenge-constraints: delete 3, update 2, create 1. -/
def CONFLICT_PRIORITY : Op → Nat
  | .delete => 3
  | .update => 2
  | .create => 1

/-- MAX_RETRIES constant of syncService.js. -/
def MAX_RETRIES : Nat := 3

/-- Possible values of the tasks.sync_status column. -/
inductive SyncStatus where
  | pending
  | inProgress
  | synced
  | error
  | failed
deriving DecidableEq, Repr

/-- A parsed JSON payload of a queued operation: partial record fields. -/
structure Payload where
  title : Option String := none
  description : Option String := none
  completed : Option Bool := none
  is_deleted : Option Nat := none
  created_at : Option Nat := none
  updated_at : Option Nat := none
deriving DecidableEq, Repr

/-- Content of the TEXT column sync_queue.data: either valid JSON (carrying a
payload) or a malformed string on which JSON.parse throws. -/
inductive RawData where
  | valid (p : Payload)
  | malformed (s : String)
deriving DecidableEq, Repr

/-- Model of JSON.stringify on a payload object (an injective textual encoding;
its exact shape is irrelevant to the theorems below). -/
def payloadString (p : Payload) : String :=
  reprStr p

/-- The raw TEXT stored in / read from the data column. -/
def rawString : RawData → String
  | .valid p => payloadString p
  | .malformed s => s

/-- Model of safeParseJSON: JSON.parse a string, returning an empty object
when parsing throws. -/
def safeParseJSON : RawData → Payload
  | .valid p => p
  | .malformed _ => {}

/-- A row of the tasks table. -/
structure Task where
  id : Nat
  user_id : Nat
  title : String
  description : String
  completed : Nat
  created_at : Nat
  updated_at : Nat
  is_deleted : Nat
  sync_status : SyncStatus
  server_id : Option Nat
  last_synced_at : Option Nat
deriving DecidableEq, Repr

/-- A row of the sync_queue table. -/
structure QueueItem where
  id : Nat
  user_id : Nat
  task_id : Nat
  operation : Op
  data : RawData
  retry_count : Nat
  error_message : Option String
  created_at : Nat
  operation_timestamp : Nat
deriving DecidableEq, Repr

/-- A row of the dead_letter_queue table.  The data column holds
JSON.stringify of the already-parsed payload, hence a `Payload`. -/
structure DeadLetter where
  id : Nat
  user_id : Nat
  task_id : Nat
  operation : Op
  data : Payload
  retry_count : Nat
  error_message : String
  original_created_at : Nat
  failed_at : Nat
deriving DecidableEq, Repr

/-- Status strings written to sync_logs.status. -/
inductive LogStatus where
  | completed
  | error
deriving DecidableEq, Repr

/-- A row of the sync_logs table. -/
structure SyncLog where
  id : Nat
  user_id : Nat
  change_count : Nat
  processed : Nat
  failed : Nat
  status : LogStatus
  created_at : Nat
deriving DecidableEq, Repr

/-- The persistent store: tasks, sync queue, dead-letter queue, sync logs,
plus the fresh-identifier supply modelling uuidv4(). -/
structure DB where
  tasks : List Task
  sync_queue : List QueueItem
  dead_letter_queue : List DeadLetter
  sync_logs : List SyncLog
  nextId : Nat
deriving DecidableEq, Repr

/-- Model of uuidv4(): draw the next fresh identifier. -/
def genId (db : DB) : Nat × DB :=
  (db.nextId, { db with nextId := db.nextId + 1 })

/-- Projection hashed by generateBatchChecksum for one queue item:
`{ id, task_id, operation, data }` with data coerced to its string form. -/
structure ChecksumEntry where
  id : Nat
  task_id : Nat
  operation : Op
  data : String
deriving DecidableEq, Repr

/-- The per-item projection inside generateBatchChecksum. -/
def checksumEntry (q : QueueItem) : ChecksumEntry :=
  { id := q.id, task_id := q.task_id, operation := q.operation, data := rawString q.data }

/-- Order of the `.sort((a, b) => a.id.localeCompare(b.id))` call: compare by
identifier only. -/
def EntryOrder (a b : ChecksumEntry) : Prop :=
  a.id ≤ b.id

instance : DecidableRel EntryOrder := fun a b => by
  unfold EntryOrder; infer_instance

instance : IsTrans ChecksumEntry EntryOrder :=
  ⟨fun _ _ _ hab hbc => Nat.le_trans hab hbc⟩

instance : IsTotal ChecksumEntry EntryOrder :=
  ⟨fun a b => Nat.le_total a.id b.id⟩

/-- The canonically sorted entry list whose serialization is hashed (a stable
sort by identifier, as ES2019 Array.prototype.sort guarantees). -/
def canonicalEntries (items : List QueueItem) : List ChecksumEntry :=
  List.insertionSort EntryOrder (items.map checksumEntry)

/-- Model of generateBatchChecksum; `h` abstracts `md5 ∘ JSON.stringify`,
with its digest codomain kept abstract. -/
def generateBatchChecksum {β : Type} (h : List ChecksumEntry → β) (items : List QueueItem) : β :=
  h (canonicalEntries items)

/-- Model of verifyBatchChecksum. -/
def verifyBatchChecksum {β : Type} [DecidableEq β] (h : List ChecksumEntry → β)
    (items : List QueueItem) (expectedChecksum : β) : Bool :=
  generateBatchChecksum h items = expectedChecksum

/-- taskService.getTaskByIdIncludingDeleted:
`SELECT * FROM tasks WHERE id = ? AND user_id = ?`. -/
def getTaskByIdIncludingDeleted (db : DB) (id userId : Nat) : Option Task :=
  db.tasks.find? (fun t => t.id = id ∧ t.user_id = userId)

/-- Which of the two task objects resolveConflict returns (the code's caller
distinguishes them by reference identity, `resolvedTask === serverTask`). -/
inductive Side where
  | localSide
  | serverSide
deriving DecidableEq, Repr

/-- Model of resolveConflict: it only inspects the two updated_at values and
the local operation kind, and returns one of the two task objects; we record
which one.  The server side is assumed to be an update (priority 2). -/
def resolveConflictSide (localUpdated serverUpdated : Nat) (localOperation : Op) : Side :=
  if localUpdated = serverUpdated then
    if CONFLICT_PRIORITY localOperation ≥ CONFLICT_PRIORITY Op.update then .localSide
    else .serverSide
  else if localUpdated ≥ serverUpdated then .localSide
  else .serverSide

/-- Result value of one processItem call, as consumed by processBatch.
serverDataServerId is the only field of the returned serverData object that
the caller ever reads (`serverData.server_id`, absent on the update path). -/
structure ItemResult where
  mapping : Option (Nat × Nat) := none
  conflict : Option (Nat × Task) := none
  serverDataServerId : Option Nat := none
deriving DecidableEq, Repr

/-- The create branch of processItem (also reached by update-on-missing via
`processItem({...item, operation: 'create'}, ...)`).  The INSERT of a NULL
title violates the tasks.title NOT NULL constraint and throws. -/
def processCreate (db : DB) (now : Nat) (item : QueueItem) (data : Payload) (userId : Nat) :
    Except String (ItemResult × DB) :=
  match data.title with
  | none => .error "NOT NULL constraint failed: tasks.title"
  | some ttl =>
    let (id, db1) := genId db
    let taskData : Task := {
      id := id
      user_id := userId
      title := ttl
      description := data.description.getD ""
      completed := if data.completed.getD false then 1 else 0
      created_at := data.created_at.getD now
      updated_at := data.updated_at.getD now
      is_deleted := 0
      sync_status := .synced
      server_id := some id
      last_synced_at := some now }
    .ok ({ mapping := some (item.task_id, id), serverDataServerId := some id },
         { db1 with tasks := db1.tasks ++ [taskData] })

/-- Model of processItem. -/
def processItem (db : DB) (now : Nat) (item : QueueItem) (data : Payload) (userId : Nat) :
    Except String (ItemResult × DB) :=
  match item.operation with
  | .create => processCreate db now item data userId
  | _ =>
    match getTaskByIdIncludingDeleted db item.task_id userId with
    | none =>
      if item.operation = .delete then .ok ({}, db)
      else processCreate db now item data userId
    | some serverTask =>
      let localUpdated := data.updated_at.getD serverTask.updated_at
      match resolveConflictSide localUpdated serverTask.updated_at item.operation with
      | .serverSide => .ok ({ conflict := some (item.task_id, serverTask) }, db)
      | .localSide =>
        let mergedTitle := data.title.getD serverTask.title
        let mergedDescription := data.description.getD serverTask.description
        let mergedCompleted := match data.completed with
          | some c => if c then 1 else 0
          | none => serverTask.completed
        let mergedIsDeleted :=
          if item.operation = Op.delete then 1 else data.is_deleted.getD serverTask.is_deleted
        let db1 := { db with tasks := db.tasks.map (fun t =>
          if t.id = item.task_id ∧ t.user_id = userId then
            { t with
              title := mergedTitle
              description := mergedDescription
              completed := mergedCompleted
              is_deleted := mergedIsDeleted
              updated_at := now
              sync_status := .synced
              last_synced_at := some now }
          else t) }
        .ok ({}, db1)

/-- Model of updateSyncStatus.  serverDataServerId is `serverData.server_id`
of the optional fourth argument (none when absent or `{}`).  On status
'synced' every sync_queue row of the same task and user is deleted. -/
def updateSyncStatus (db : DB) (now : Nat) (taskId : Nat) (status : SyncStatus)
    (userId : Nat) (serverDataServerId : Option Nat) : DB :=
  let serverId := serverDataServerId.getD taskId
  let db1 := { db with tasks := db.tasks.map (fun t =>
    if t.id = taskId ∧ t.user_id = userId then
      { t with sync_status := status, last_synced_at := some now, server_id := some serverId }
    else t) }
  if status = SyncStatus.synced then
    { db1 with sync_queue :=
        db1.sync_queue.filter (fun q => ¬(q.task_id = taskId ∧ q.user_id = userId)) }
  else db1

/-- Model of handleSyncError.  `parsedData` is the already-parsed payload the
caller substituted into the item (`{ ...raw, data: safeParseJSON(raw.data) }`). -/
def handleSyncError (db : DB) (now : Nat) (item : QueueItem) (parsedData : Payload)
    (errorMessage : String) (userId : Nat) : DB :=
  let retry_count := item.retry_count + 1
  if retry_count ≥ MAX_RETRIES then
    let (deadLetterId, db1) := genId db
    let dl : DeadLetter := {
      id := deadLetterId
      user_id := userId
      task_id := item.task_id
      operation := item.operation
      data := parsedData
      retry_count := retry_count
      error_message := errorMessage
      original_created_at := item.created_at
      failed_at := now }
    let db2 := { db1 with dead_letter_queue := db1.dead_letter_queue ++ [dl] }
    let db3 := { db2 with sync_queue :=
      db2.sync_queue.filter (fun q => ¬(q.id = item.id ∧ q.user_id = userId)) }
    updateSyncStatus db3 now item.task_id .failed userId none
  else
    let db1 := { db with sync_queue := db.sync_queue.map (fun q =>
      if q.id = item.id ∧ q.user_id = userId then
        { q with retry_count := retry_count, error_message := some errorMessage }
      else q) }
    updateSyncStatus db1 now item.task_id .error userId none

/-- Accumulated result of processBatch. -/
structure BatchResult where
  mappings : List (Nat × Nat) := []
  conflicts : List (Nat × Task) := []
  processed : Nat := 0
  failed : Nat := 0
deriving DecidableEq, Repr

/-- Model of processBatch: each item is parsed, processed, and on success the
target record is marked synced; a thrown error is routed per item through
handleSyncError and never aborts the remaining items. -/
def processBatch (db : DB) (now : Nat) (items : List QueueItem) (userId : Nat) :
    BatchResult × DB :=
  match items with
  | [] => ({}, db)
  | raw :: rest =>
    let data := safeParseJSON raw.data
    match processItem db now raw data userId with
    | .ok (result, db1) =>
      let db2 := updateSyncStatus db1 now raw.task_id .synced userId result.serverDataServerId
      let (r, db3) := processBatch db2 now rest userId
      ({ mappings := result.mapping.toList ++ r.mappings
         conflicts := result.conflict.toList ++ r.conflicts
         processed := 1 + r.processed
         failed := r.failed }, db3)
    | .error e =>
      let db1 := handleSyncError db now raw data e userId
      let (r, db2) := processBatch db1 now rest userId
      ({ r with failed := 1 + r.failed }, db2)

/-- Model of addToSyncQueue (identical in syncService.js and taskService.js):
INSERT a fresh queue row; operation_timestamp defaults to the enqueue time
when the optional argument is not passed. -/
def addToSyncQueue (db : DB) (now : Nat) (taskId : Nat) (operation : Op) (data : Payload)
    (userId : Nat) (operationTimestamp : Option Nat) : DB :=
  let (queueId, db1) := genId db
  let created_at := now
  let operation_timestamp := operationTimestamp.getD created_at
  { db1 with sync_queue := db1.sync_queue ++ [{
      id := queueId
      user_id := userId
      task_id := taskId
      operation := operation
      data := .valid data
      retry_count := 0
      error_message := none
      created_at := created_at
      operation_timestamp := operation_timestamp }] }

/-- One client change item of a SubmitSync request body. -/
structure Change where
  local_id : Nat
  server_id : Option Nat
  operation : Op
  data : Payload
deriving DecidableEq, Repr

/-- The enqueue loop at the top of sync: each change is added to the queue
with `taskId = change.server_id || change.local_id` and no operation
timestamp argument. -/
def enqueueChanges (db : DB) (now : Nat) (changes : List Change) (userId : Nat) : DB :=
  changes.foldl
    (fun d c => addToSyncQueue d now (c.server_id.getD c.local_id) c.operation c.data userId none)
    db

/-- The sort key of `ORDER BY task_id, operation_timestamp, created_at, id`
as a lexicographic order relation. -/
def QueueOrder (a b : QueueItem) : Prop :=
  a.task_id < b.task_id ∨
    (a.task_id = b.task_id ∧
      (a.operation_timestamp < b.operation_timestamp ∨
        (a.operation_timestamp = b.operation_timestamp ∧
          (a.created_at < b.created_at ∨
            (a.created_at = b.created_at ∧ a.id ≤ b.id)))))

instance : DecidableRel QueueOrder := fun a b => by
  unfold QueueOrder; infer_instance

instance : IsTrans QueueItem QueueOrder :=
  ⟨fun a b c hab hbc => by unfold QueueOrder at *; omega⟩

instance : IsTotal QueueItem QueueOrder :=
  ⟨fun a b => by unfold QueueOrder; omega⟩

/-- The drain query of sync:
`SELECT * FROM sync_queue WHERE user_id = ? ORDER BY task_id,
operation_timestamp, created_at, id`. -/
def drainQueue (db : DB) (userId : Nat) : List QueueItem :=
  List.insertionSort QueueOrder (db.sync_queue.filter (fun q => q.user_id = userId))

/-- The batch loop of sync: verify each checksum; on mismatch count the whole
batch failed and skip it; otherwise mark items in-progress then process. -/
def runBatches {β : Type} [DecidableEq β] (h : List ChecksumEntry → β) (db : DB) (now : Nat)
    (userId : Nat) : List (List QueueItem × β) → BatchResult × DB
  | [] => ({}, db)
  | (batch, checksum) :: rest =>
    if verifyBatchChecksum h batch checksum then
      let db1 := batch.foldl
        (fun d item => updateSyncStatus d now item.task_id .inProgress userId none) db
      let (r1, db2) := processBatch db1 now batch userId
      let (r2, db3) := runBatches h db2 now userId rest
      ({ mappings := r1.mappings ++ r2.mappings
         conflicts := r1.conflicts ++ r2.conflicts
         processed := r1.processed + r2.processed
         failed := r1.failed + r2.failed }, db3)
    else
      let (r2, db2) := runBatches h db now userId rest
      ({ r2 with failed := batch.length + r2.failed }, db2)

/-- Result object of one sync call. -/
structure SyncResult where
  mappings : List (Nat × Nat)
  conflicts : List (Nat × Task)
  serverChanges : List Task
  status : LogStatus
  processed : Nat
  failed : Nat
deriving DecidableEq, Repr

/-- Model of sync: enqueue the client changes, drain the queue in
chronological-per-task order, slice into batches of `batchSize` with
checksums, process them, log the session, and return the server changes. -/
def sync {β : Type} [DecidableEq β] (h : List ChecksumEntry → β) (batchSize : Nat) (db : DB)
    (now : Nat) (changes : List Change) (last_synced_at : Nat) (userId : Nat)
    (syncId : Option Nat) : SyncResult × DB :=
  let db1 := enqueueChanges db now changes userId
  let queueItems := drainQueue db1 userId
  let batches := (List.toChunks batchSize queueItems).map
    (fun b => (b, generateBatchChecksum h b))
  let (res, db2) := runBatches h db1 now userId batches
  let status := if res.failed > 0 then LogStatus.error else LogStatus.completed
  let (logId, db3) := match syncId with
    | some s => (s, db2)
    | none => genId db2
  let log : SyncLog := {
    id := logId
    user_id := userId
    change_count := queueItems.length
    processed := res.processed
    failed := res.failed
    status := status
    created_at := now }
  let db4 := { db3 with sync_logs := db3.sync_logs ++ [log] }
  let serverChanges := db4.tasks.filter (fun t => t.user_id = userId ∧ last_synced_at < t.updated_at)
  ({ mappings := res.mappings
     conflicts := res.conflicts
     serverChanges := serverChanges
     status := status
     processed := res.processed
     failed := res.failed }, db4)

/-! Concrete store and queue instances used in closed statements. -/

/-- Digest function used in closed end-to-end computations. -/
def hzero : List ChecksumEntry → Nat := fun _ => 0

/-- Scenario record: a server-side task of owner 1 with the given updated_at. -/
def scenarioTask (t0 : Nat) : Task :=
  ⟨1, 1, "a", "", 0, 0, t0, 0, .pending, none, none⟩

/-- A queued update for record 1 with operation timestamp (and payload updated_at) t1. -/
def scenarioUpdate (t1 : Nat) : QueueItem :=
  ⟨10, 1, 1, .update, .valid { title := some "b", updated_at := some t1 }, 0, none, t1, t1⟩

/-- A queued delete for record 1 with operation timestamp (and payload updated_at) t2. -/
def scenarioDelete (t2 : Nat) : QueueItem :=
  ⟨11, 1, 1, .delete, .valid { updated_at := some t2 }, 0, none, t2, t2⟩

/-- Store holding the scenario record and the queued update-then-delete pair. -/
def scenarioDB (t0 t1 t2 : Nat) : DB :=
  ⟨[scenarioTask t0], [scenarioUpdate t1, scenarioDelete t2], [], [], 100⟩

/-- The record state the scenario store reaches after a sync at time `now`. -/
def finalTask (now : Nat) : Task :=
  ⟨1, 1, "b", "", 0, 0, now, 0, .synced, some 1, some now⟩

def taskB : Task := ⟨2, 1, "keep", "d", 0, 0, 10, 0, .pending, none, none⟩

def updRowB : QueueItem :=
  ⟨12, 1, 2, .update, .valid { title := some "evil", updated_at := some 5 }, 0, none, 3, 3⟩

def dbB : DB := ⟨[taskB], [updRowB], [], [], 200⟩

def qRow1 : QueueItem := ⟨21, 1, 5, .update, .valid {}, 0, none, 1, 1⟩

def qRow2 : QueueItem := ⟨22, 1, 5, .delete, .valid {}, 0, none, 2, 2⟩

def dbC : DB := ⟨[], [qRow1, qRow2], [], [], 300⟩

def taskD : Task := ⟨3, 1, "t", "", 0, 0, 7, 0, .pending, none, none⟩

def badRowD : QueueItem := ⟨31, 1, 3, .update, .malformed "oops", 0, none, 4, 4⟩

def dbD : DB := ⟨[taskD], [badRowD], [], [], 400⟩

def delRowE : QueueItem := ⟨41, 1, 9, .delete, .valid { updated_at := some 2 }, 0, none, 1, 1⟩

def updRowE : QueueItem := ⟨42, 1, 9, .update, .valid { title := some "n" }, 0, none, 1, 1⟩

def dbE : DB := ⟨[], [delRowE], [], [], 500⟩

def failRowF : QueueItem := ⟨51, 1, 6, .create, .malformed "x", 2, some "prev", 3, 3⟩

def okRowF : QueueItem := ⟨52, 1, 6, .create, .malformed "x", 0, none, 3, 3⟩

def taskF : Task := ⟨6, 1, "f", "", 0, 0, 0, 0, .error, none, none⟩

def dbF : DB := ⟨[taskF], [failRowF], [], [], 600⟩

def dbF2 : DB := ⟨[taskF], [okRowF], [], [], 600⟩

def qW1 : QueueItem := ⟨61, 1, 7, .update, .malformed "a", 0, none, 1, 1⟩

def qW2 : QueueItem := ⟨62, 1, 8, .delete, .malformed "b", 0, none, 2, 2⟩

def dbW : DB := ⟨[], [], [], [], 700⟩

def chW : Change := ⟨7, none, .update, {}⟩

def rowW : QueueItem := ⟨700, 1, 7, .update, .valid {}, 0, none, 5, 5⟩

/-! Helper lemmas. -/

/-- Strictly earlier local timestamp loses against the server. -/
theorem resolveConflictSide_of_lt {lt st : Nat} (h : lt < st) (op : Op) :
    resolveConflictSide lt st op = .serverSide := by
  unfold resolveConflictSide
  rw [if_neg (by omega), if_neg (by omega)]

/-- A local update whose timestamp is at least the server timestamp wins. -/
theorem resolveConflictSide_update_of_ge {lt st : Nat} (h : st ≤ lt) :
    resolveConflictSide lt st .update = .localSide := by
  unfold resolveConflictSide
  rcases Nat.eq_or_lt_of_le h with h' | h'
  · rw [if_pos h'.symm, if_pos (by decide)]
  · rw [if_neg (by omega), if_pos (by omega)]

/-- The queue sort key is transitive. -/
theorem QueueOrder_trans (a b c : QueueItem) :
    QueueOrder a b → QueueOrder b c → QueueOrder a c := by
  unfold QueueOrder; omega

/-- The queue sort key is total. -/
theorem QueueOrder_total (a b : QueueItem) : QueueOrder a b ∨ QueueOrder b a := by
  unfold QueueOrder; omega

/-! Claim theorems. -/

/-- C2: the conflict resolver is a pure function of the two timestamps and the
local operation kind; a strictly later timestamp wins outright, and on equal
timestamps the kind priority (delete 3 > update 2 > create 1, against a server
side assumed to be an update) makes delete and update win locally and create
lose to the server. -/
theorem resolveConflict_lww_and_priority (lt st : Nat) (op : Op) :
    (resolveConflictSide lt st op =
      if lt = st then (if op = Op.create then Side.serverSide else Side.localSide)
      else if st < lt then Side.localSide else Side.serverSide) ∧
    CONFLICT_PRIORITY Op.delete > CONFLICT_PRIORITY Op.update ∧
    CONFLICT_PRIORITY Op.update > CONFLICT_PRIORITY Op.create := by
  refine ⟨?_, by decide, by decide⟩
  unfold resolveConflictSide
  rcases Nat.lt_trichotomy lt st with h | h | h
  · rw [if_neg (by omega), if_neg (by omega), if_neg (by omega), if_neg (by omega)]
  · subst h
    rw [if_pos rfl, if_pos rfl]
    cases op <;> simp [CONFLICT_PRIORITY]
  · rw [if_neg (by omega), if_pos (by omega), if_neg (by omega), if_pos (by omega)]

/-- C5: removal after successful apply is keyed on the target record and
owner, not on the single operation identifier: it deletes every queue entry
of that task and user, so another pending operation for the same record does
not survive.  Here the claim fails: dbC holds two distinct pending operations
for record 5, and marking the record synced empties the queue. -/
theorem remove_after_apply_deletes_sibling_ops :
    qRow1 ∈ dbC.sync_queue ∧ qRow2 ∈ dbC.sync_queue ∧ qRow1.id ≠ qRow2.id ∧
    qRow1.task_id = qRow2.task_id ∧
    (updateSyncStatus dbC 9 5 .synced 1 none).sync_queue = [] := by
  refine ⟨by decide, by decide, by decide, by decide, ?_⟩
  rfl

/-- C5 amended: after a successful apply the queue retains exactly the
entries that do not target the applied record for that owner. -/
theorem remove_after_apply_filters_by_record (db : DB) (now taskId userId : Nat)
    (sid : Option Nat) :
    ∀ q : QueueItem,
      q ∈ (updateSyncStatus db now taskId .synced userId sid).sync_queue ↔
        (q ∈ db.sync_queue ∧ ¬(q.task_id = taskId ∧ q.user_id = userId)) := by
  intro q
  unfold updateSyncStatus
  rw [if_pos rfl]
  simp only [List.mem_filter, decide_eq_true_eq]

/-- C5 amended, witnessed at a concrete queue: the unrelated entry of another
record survives while both entries of the applied record are removed. -/
theorem remove_after_apply_filters_by_record_witness :
    qRow1 ∈ (updateSyncStatus ⟨[], [qRow1, updRowB], [], [], 0⟩ 9 2 .synced 1 none).sync_queue ↔
      (qRow1 ∈ ([qRow1, updRowB] : List QueueItem) ∧ ¬(qRow1.task_id = 2 ∧ qRow1.user_id = 1)) :=
  remove_after_apply_filters_by_record ⟨[], [qRow1, updRowB], [], [], 0⟩ 9 2 1 none qRow1

/-- C6: draining the queue for an owner returns a permutation of exactly that
owner's queue entries, sorted by target record id, then operation timestamp,
then enqueue time, then identifier. -/
theorem drainQueue_sorted_perm (db : DB) (userId : Nat) :
    (drainQueue db userId).Perm (db.sync_queue.filter (fun q => q.user_id = userId)) ∧
    List.Pairwise QueueOrder (drainQueue db userId) :=
  ⟨List.perm_insertionSort QueueOrder _, List.sorted_insertionSort QueueOrder _⟩

/-- C10: a change submitted through sync is enqueued with no operation
timestamp argument, so its operation timestamp equals its enqueue time; an
explicitly passed operation timestamp (the local CRUD path) is stored as
given. -/
theorem sync_enqueue_uses_enqueue_time (db : DB) (now : Nat) (changes : List Change)
    (userId : Nat) :
    (∀ q ∈ (enqueueChanges db now changes userId).sync_queue,
        q ∈ db.sync_queue ∨ (q.operation_timestamp = q.created_at ∧ q.created_at = now)) ∧
    (∀ taskId op data ts,
        (addToSyncQueue db now taskId op data userId (some ts)).sync_queue =
          db.sync_queue ++ [⟨db.nextId, userId, taskId, op, .valid data, 0, none, now, ts⟩]) ∧
    (∀ taskId op data,
        (addToSyncQueue db now taskId op data userId none).sync_queue =
          db.sync_queue ++ [⟨db.nextId, userId, taskId, op, .valid data, 0, none, now, now⟩]) := by
  refine ⟨?_, fun taskId op data ts => rfl, fun taskId op data => rfl⟩
  induction changes generalizing db with
  | nil => intro q hq; exact .inl hq
  | cons c cs ih =>
    intro q hq
    rcases ih (addToSyncQueue db now (c.server_id.getD c.local_id) c.operation c.data userId none)
        q hq with h | h
    · simp only [addToSyncQueue, genId, List.mem_append, List.mem_singleton] at h
      rcases h with h | h
      · exact .inl h
      · exact .inr (by rw [h]; exact ⟨rfl, rfl⟩)
    · exact .inr h

/-- C10 witnessed at a concrete sync enqueue of one client change. -/
theorem sync_enqueue_uses_enqueue_time_witness :
    rowW ∈ dbW.sync_queue ∨ (rowW.operation_timestamp = rowW.created_at ∧ rowW.created_at = 5) :=
  (sync_enqueue_uses_enqueue_time dbW 5 [chW] 1).1 rowW (by decide)

/-- Task-table effect of updateSyncStatus, independent of the status branch. -/
theorem updateSyncStatus_tasks_eq (db : DB) (now taskId userId : Nat) (status : SyncStatus)
    (sid : Option Nat) :
    (updateSyncStatus db now taskId status userId sid).tasks =
      db.tasks.map (fun t => if t.id = taskId ∧ t.user_id = userId then
        { t with sync_status := status, last_synced_at := some now,
                 server_id := some (sid.getD taskId) } else t) := by
  unfold updateSyncStatus
  split <;> rfl

/-- updateSyncStatus never touches the dead-letter store. -/
theorem updateSyncStatus_dlq_eq (db : DB) (now taskId userId : Nat) (status : SyncStatus)
    (sid : Option Nat) :
    (updateSyncStatus db now taskId status userId sid).dead_letter_queue =
      db.dead_letter_queue := by
  unfold updateSyncStatus
  split <;> rfl

/-- Queue effect of updateSyncStatus: rows of the task are deleted exactly on
status synced. -/
theorem updateSyncStatus_queue_eq (db : DB) (now taskId userId : Nat) (status : SyncStatus)
    (sid : Option Nat) :
    (updateSyncStatus db now taskId status userId sid).sync_queue =
      if status = SyncStatus.synced then
        db.sync_queue.filter (fun q => ¬(q.task_id = taskId ∧ q.user_id = userId))
      else db.sync_queue := by
  unfold updateSyncStatus
  by_cases hs : status = SyncStatus.synced
  · subst hs; rfl
  · rw [if_neg hs, if_neg hs]

/-- C4: a failed apply attempt increments the retry count and records the
error message; when the new count reaches MAX_RETRIES (3) the operation is
appended to the dead-letter store exactly once, every queue entry with its
identifier is removed, and the target record is marked failed; below the
ceiling the entry stays queued with the bumped count and message and the
record is marked error. -/
theorem handleSyncError_retry_and_dead_letter (db : DB) (now : Nat) (item : QueueItem)
    (p : Payload) (msg : String) (userId : Nat) :
    (item.retry_count + 1 ≥ MAX_RETRIES →
      (handleSyncError db now item p msg userId).dead_letter_queue =
        db.dead_letter_queue ++
          [⟨db.nextId, userId, item.task_id, item.operation, p, item.retry_count + 1, msg,
            item.created_at, now⟩] ∧
      (handleSyncError db now item p msg userId).sync_queue =
        db.sync_queue.filter (fun q => ¬(q.id = item.id ∧ q.user_id = userId)) ∧
      (∀ t ∈ db.tasks, t.id = item.task_id → t.user_id = userId →
        { t with sync_status := SyncStatus.failed, last_synced_at := some now,
                 server_id := some item.task_id } ∈
          (handleSyncError db now item p msg userId).tasks)) ∧
    (item.retry_count + 1 < MAX_RETRIES →
      (handleSyncError db now item p msg userId).dead_letter_queue = db.dead_letter_queue ∧
      (handleSyncError db now item p msg userId).sync_queue =
        db.sync_queue.map (fun q => if q.id = item.id ∧ q.user_id = userId then
          { q with retry_count := item.retry_count + 1, error_message := some msg } else q) ∧
      (∀ q ∈ db.sync_queue, q.id = item.id → q.user_id = userId →
        { q with retry_count := item.retry_count + 1, error_message := some msg } ∈
          (handleSyncError db now item p msg userId).sync_queue) ∧
      (∀ t ∈ db.tasks, t.id = item.task_id → t.user_id = userId →
        { t with sync_status := SyncStatus.error, last_synced_at := some now,
                 server_id := some item.task_id } ∈
          (handleSyncError db now item p msg userId).tasks)) := by
  constructor
  · intro h3
    unfold handleSyncError
    rw [if_pos h3]
    simp only [genId]
    refine ⟨?_, ?_, ?_⟩
    · rw [updateSyncStatus_dlq_eq]
    · rw [updateSyncStatus_queue_eq, if_neg (by decide)]
    · intro t ht h1 h2
      rw [updateSyncStatus_tasks_eq]
      exact List.mem_map.mpr ⟨t, ht, by rw [if_pos ⟨h1, h2⟩]; rfl⟩
  · intro h3
    unfold handleSyncError
    rw [if_neg (by omega)]
    refine ⟨?_, ?_, ?_, ?_⟩
    · rw [updateSyncStatus_dlq_eq]
    · rw [updateSyncStatus_queue_eq, if_neg (by decide)]
    · intro q hq h1 h2
      rw [updateSyncStatus_queue_eq, if_neg (by decide)]
      exact List.mem_map.mpr ⟨q, hq, by rw [if_pos ⟨h1, h2⟩]⟩
    · intro t ht h1 h2
      rw [updateSyncStatus_tasks_eq]
      exact List.mem_map.mpr ⟨t, ht, by rw [if_pos ⟨h1, h2⟩]; rfl⟩

/-- C4 witnessed on a concrete store: a third failure dead-letters the
operation, a first failure bumps the queued retry count in place. -/
theorem handleSyncError_retry_and_dead_letter_witness :
    (handleSyncError dbF 8 failRowF {} "boom" 1).dead_letter_queue =
      dbF.dead_letter_queue ++ [⟨600, 1, 6, .create, {}, 3, "boom", 3, 8⟩] ∧
    (handleSyncError dbF2 8 okRowF {} "boom" 1).sync_queue =
      dbF2.sync_queue.map (fun q => if q.id = okRowF.id ∧ q.user_id = 1 then
        { q with retry_count := 1, error_message := some "boom" } else q) := by
  constructor
  · exact ((handleSyncError_retry_and_dead_letter dbF 8 failRowF {} "boom" 1).1 (by decide)).1
  · exact ((handleSyncError_retry_and_dead_letter dbF2 8 okRowF {} "boom" 1).2 (by decide)).2.1

/-- C7 counterexample: a batch containing one operation with a malformed
payload processes it successfully (parsed as an empty object): it is counted
processed, not failed, no retry is charged and the queue entry is removed. -/
theorem malformed_update_counts_processed_cex :
    badRowD.data = RawData.malformed "oops" ∧
    (processBatch dbD 9 [badRowD] 1).1.failed = 0 ∧
    (processBatch dbD 9 [badRowD] 1).1.processed = 1 ∧
    (processBatch dbD 9 [badRowD] 1).2.dead_letter_queue = [] ∧
    (processBatch dbD 9 [badRowD] 1).2.sync_queue = [] :=
  ⟨rfl, rfl, rfl, rfl, rfl⟩

/-- C7 amended: a malformed payload is silently parsed to an empty object and
never aborts the batch: every operation of a batch is attempted and counted
exactly once as processed or failed; a malformed payload causes a charged
per-operation failure only when the resulting apply throws, as for a create
whose empty payload violates the NOT NULL title constraint. -/
theorem malformed_payload_never_aborts_batch (db : DB) (now : Nat) (items : List QueueItem)
    (userId : Nat) :
    ((processBatch db now items userId).1.processed +
        (processBatch db now items userId).1.failed = items.length) ∧
    (∀ s, safeParseJSON (.malformed s) = ({} : Payload)) ∧
    (∀ item : QueueItem, item.operation = Op.create → ∀ s, item.data = RawData.malformed s →
      processItem db now item (safeParseJSON item.data) userId =
        .error "NOT NULL constraint failed: tasks.title") := by
  refine ⟨?_, fun s => rfl, ?_⟩
  · induction items generalizing db with
    | nil => rfl
    | cons raw rest ih =>
      unfold processBatch
      cases hpi : processItem db now raw (safeParseJSON raw.data) userId with
      | ok res =>
        obtain ⟨result, db1⟩ := res
        rcases hr : processBatch
            (updateSyncStatus db1 now raw.task_id .synced userId result.serverDataServerId)
            now rest userId with ⟨r, db3⟩
        have hrec := ih (updateSyncStatus db1 now raw.task_id .synced userId
          result.serverDataServerId)
        rw [hr] at hrec
        simp only [hpi, hr, List.length_cons]
        dsimp only at hrec ⊢
        omega
      | error e =>
        rcases hr : processBatch (handleSyncError db now raw (safeParseJSON raw.data) e userId)
            now rest userId with ⟨r, db2⟩
        have hrec := ih (handleSyncError db now raw (safeParseJSON raw.data) e userId)
        rw [hr] at hrec
        simp only [hpi, hr, List.length_cons]
        dsimp only at hrec ⊢
        omega
  · rintro ⟨qid, quid, qtid, qop, qdata, qrc, qem, qca, qts⟩ hop s hdata
    simp only at hop hdata
    subst hop
    subst hdata
    rfl

/-- C7 amended, witnessed: the malformed-update batch is fully accounted for,
and a malformed create throws the NOT NULL error. -/
theorem malformed_payload_never_aborts_batch_witness :
    ((processBatch dbD 9 [badRowD] 1).1.processed +
        (processBatch dbD 9 [badRowD] 1).1.failed = 1) ∧
    processItem dbD 9 okRowF (safeParseJSON okRowF.data) 1 =
      .error "NOT NULL constraint failed: tasks.title" := by
  constructor
  · exact (malformed_payload_never_aborts_batch dbD 9 [badRowD] 1).1
  · exact (malformed_payload_never_aborts_batch dbD 9 [] 1).2.2 okRowF rfl "x" rfl

/-- C8 counterexample: a delete whose target record does not exist
server-side is not treated as an implicit create: no fresh identifier is
allocated, no record is written, and no mapping is returned. -/
theorem delete_on_missing_record_is_noop_cex :
    getTaskByIdIncludingDeleted dbE delRowE.task_id 1 = none ∧
    processItem dbE 5 delRowE (safeParseJSON delRowE.data) 1 = .ok ({}, dbE) ∧
    dbE.tasks = [] ∧ (({} : ItemResult)).mapping = none :=
  ⟨rfl, rfl, rfl, rfl⟩

/-- C8 amended: an update on a missing record is treated as an implicit
create — fresh server identifier, new record written with sync_status synced,
mapping from the original target id returned — while a delete on a missing
record silently succeeds as a pure no-op with no create and no mapping. -/
theorem missing_record_update_creates_delete_noops (db : DB) (now : Nat) (item : QueueItem)
    (userId : Nat)
    (hmiss : getTaskByIdIncludingDeleted db item.task_id userId = none) :
    (item.operation = Op.delete →
      processItem db now item (safeParseJSON item.data) userId = .ok ({}, db)) ∧
    (item.operation = Op.update → ∀ ttl, (safeParseJSON item.data).title = some ttl →
      processItem db now item (safeParseJSON item.data) userId =
        .ok ({ mapping := some (item.task_id, db.nextId), serverDataServerId := some db.nextId },
             { db with nextId := db.nextId + 1,
                       tasks := db.tasks ++ [{
                         id := db.nextId
                         user_id := userId
                         title := ttl
                         description := (safeParseJSON item.data).description.getD ""
                         completed :=
                           if (safeParseJSON item.data).completed.getD false then 1 else 0
                         created_at := (safeParseJSON item.data).created_at.getD now
                         updated_at := (safeParseJSON item.data).updated_at.getD now
                         is_deleted := 0
                         sync_status := .synced
                         server_id := some db.nextId
                         last_synced_at := some now }] })) := by
  obtain ⟨qid, quid, qtid, qop, qdata, qrc, qem, qca, qts⟩ := item
  simp only at hmiss ⊢
  constructor
  · intro hop
    subst hop
    unfold processItem
    rw [hmiss]
    rfl
  · intro hop ttl httl
    subst hop
    unfold processItem
    rw [hmiss]
    unfold processCreate genId
    rw [httl]
    rfl

/-- C8 amended, witnessed by a concrete update on a missing record. -/
theorem missing_record_update_creates_delete_noops_witness :
    processItem dbE 5 updRowE (safeParseJSON updRowE.data) 1 =
      .ok ({ mapping := some (9, 500), serverDataServerId := some 500 },
           { dbE with nextId := 501,
                      tasks := [⟨500, 1, "n", "", 0, 5, 5, 0, .synced, some 500, some 5⟩] }) :=
  (missing_record_update_creates_delete_noops dbE 5 updRowE 1 rfl).2 rfl "n" rfl

/-- Outcome of processItem on an update/delete whose conflict resolution the
server side wins: a conflict report, store untouched. -/
theorem processItem_server_win (db : DB) (now : Nat) (item : QueueItem) (userId : Nat)
    (st : Task)
    (hop : item.operation = Op.update ∨ item.operation = Op.delete)
    (hfind : getTaskByIdIncludingDeleted db item.task_id userId = some st)
    (hres : resolveConflictSide ((safeParseJSON item.data).updated_at.getD st.updated_at)
        st.updated_at item.operation = Side.serverSide) :
    processItem db now item (safeParseJSON item.data) userId =
      .ok ({ conflict := some (item.task_id, st) }, db) := by
  obtain ⟨qid, quid, qtid, qop, qdata, qrc, qem, qca, qts⟩ := item
  dsimp only at hop hfind hres ⊢
  rcases hop with hop | hop
  all_goals
    subst hop
    unfold processItem
    dsimp only
    rw [hfind]
    dsimp only
    rw [hres]

/-- Outcome of processItem on an update/delete whose conflict resolution the
local side wins: the merged fields are written to the matching record rows. -/
theorem processItem_local_win (db : DB) (now : Nat) (item : QueueItem) (userId : Nat)
    (st : Task)
    (hop : item.operation = Op.update ∨ item.operation = Op.delete)
    (hfind : getTaskByIdIncludingDeleted db item.task_id userId = some st)
    (hres : resolveConflictSide ((safeParseJSON item.data).updated_at.getD st.updated_at)
        st.updated_at item.operation = Side.localSide) :
    processItem db now item (safeParseJSON item.data) userId =
      .ok ({}, { db with tasks := db.tasks.map (fun t =>
        if t.id = item.task_id ∧ t.user_id = userId then
          { t with
            title := (safeParseJSON item.data).title.getD st.title
            description := (safeParseJSON item.data).description.getD st.description
            completed := match (safeParseJSON item.data).completed with
              | some c => if c then 1 else 0
              | none => st.completed
            is_deleted := if item.operation = Op.delete then 1
              else (safeParseJSON item.data).is_deleted.getD st.is_deleted
            updated_at := now
            sync_status := .synced
            last_synced_at := some now }
        else t) }) := by
  obtain ⟨qid, quid, qtid, qop, qdata, qrc, qem, qca, qts⟩ := item
  dsimp only at hop hfind hres ⊢
  rcases hop with hop | hop
  all_goals
    subst hop
    unfold processItem
    dsimp only
    rw [hfind]
    dsimp only
    rw [hres]

/-- processBatch on the empty batch. -/
theorem processBatch_nil (db : DB) (now userId : Nat) :
    processBatch db now [] userId = ({}, db) := rfl

/-- One successful step of processBatch. -/
theorem processBatch_cons_ok (db : DB) (now : Nat) (raw : QueueItem) (rest : List QueueItem)
    (userId : Nat) (result : ItemResult) (db1 : DB)
    (hpi : processItem db now raw (safeParseJSON raw.data) userId = Except.ok (result, db1)) :
    processBatch db now (raw :: rest) userId =
      ({ mappings := result.mapping.toList ++
           (processBatch (updateSyncStatus db1 now raw.task_id .synced userId
              result.serverDataServerId) now rest userId).1.mappings
         conflicts := result.conflict.toList ++
           (processBatch (updateSyncStatus db1 now raw.task_id .synced userId
              result.serverDataServerId) now rest userId).1.conflicts
         processed := 1 + (processBatch (updateSyncStatus db1 now raw.task_id .synced userId
              result.serverDataServerId) now rest userId).1.processed
         failed := (processBatch (updateSyncStatus db1 now raw.task_id .synced userId
              result.serverDataServerId) now rest userId).1.failed },
       (processBatch (updateSyncStatus db1 now raw.task_id .synced userId
          result.serverDataServerId) now rest userId).2) := by
  conv_lhs => unfold processBatch
  simp only [hpi]

/-- C3 counterexample: a server-win conflict does not leave the record
unchanged: processing the losing update reports the conflict but still sets
sync_status to synced, refreshes last_synced_at and writes server_id. -/
theorem server_win_conflict_changes_record_cex :
    taskB.sync_status = SyncStatus.pending ∧ taskB.server_id = none ∧
    (processBatch dbB 20 [updRowB] 1).1.conflicts = [(2, taskB)] ∧
    (processBatch dbB 20 [updRowB] 1).2.tasks =
      [{ taskB with sync_status := SyncStatus.synced, last_synced_at := some 20,
                    server_id := some 2 }] ∧
    (processBatch dbB 20 [updRowB] 1).2.tasks ≠ dbB.tasks :=
  ⟨rfl, rfl, rfl, rfl, by decide⟩

/-- C3 amended: when the server side wins an update/delete conflict, no data
field of the record (title, description, completed, is_deleted, updated_at)
is written and a conflict report carrying the server snapshot is emitted, but
the batch loop still marks the record synced — sync_status := synced,
last_synced_at refreshed, server_id set to the target id — and deletes the
record's queue entries. -/
theorem server_win_conflict_reports_and_marks_synced (db : DB) (now : Nat) (item : QueueItem)
    (userId : Nat) (st : Task)
    (hop : item.operation = Op.update ∨ item.operation = Op.delete)
    (hfind : getTaskByIdIncludingDeleted db item.task_id userId = some st)
    (hres : resolveConflictSide ((safeParseJSON item.data).updated_at.getD st.updated_at)
        st.updated_at item.operation = Side.serverSide) :
    (processBatch db now [item] userId).1 =
      { mappings := [], conflicts := [(item.task_id, st)], processed := 1, failed := 0 } ∧
    (processBatch db now [item] userId).2.tasks = db.tasks.map (fun t =>
      if t.id = item.task_id ∧ t.user_id = userId then
        { t with sync_status := SyncStatus.synced, last_synced_at := some now,
                 server_id := some item.task_id } else t) ∧
    (processBatch db now [item] userId).2.sync_queue =
      db.sync_queue.filter (fun q => ¬(q.task_id = item.task_id ∧ q.user_id = userId)) ∧
    (processBatch db now [item] userId).2.dead_letter_queue = db.dead_letter_queue := by
  have hpi := processItem_server_win db now item userId st hop hfind hres
  rw [processBatch_cons_ok db now item [] userId _ db hpi]
  refine ⟨rfl, ?_, ?_, ?_⟩
  · rw [processBatch_nil]
    show (updateSyncStatus db now item.task_id .synced userId _).tasks = _
    rw [updateSyncStatus_tasks_eq]
    rfl
  · rw [processBatch_nil]
    show (updateSyncStatus db now item.task_id .synced userId _).sync_queue = _
    rw [updateSyncStatus_queue_eq, if_pos rfl]
  · rw [processBatch_nil]
    show (updateSyncStatus db now item.task_id .synced userId _).dead_letter_queue = _
    rw [updateSyncStatus_dlq_eq]

/-- C3 amended, witnessed on a concrete server-win conflict. -/
theorem server_win_conflict_reports_and_marks_synced_witness :
    (processBatch dbB 20 [updRowB] 1).1 =
      { mappings := [], conflicts := [(2, taskB)], processed := 1, failed := 0 } :=
  (server_win_conflict_reports_and_marks_synced dbB 20 updRowB 1 taskB (.inl rfl) rfl rfl).1

/-- The record state reached after the queued update of the scenario store is
applied at wall-clock time `now` (its updated_at is stamped with `now`). -/
def midTask (now : Nat) : Task := ⟨1, 1, "b", "", 0, 0, now, 0, .synced, none, some now⟩

/-- Scenario store after the update is applied but before bookkeeping. -/
def dbMid (t1 t2 now : Nat) : DB :=
  ⟨[midTask now], [scenarioUpdate t1, scenarioDelete t2], [], [], 100⟩

/-- Scenario store after the update step completes its bookkeeping. -/
def dbFin (now : Nat) : DB := ⟨[finalTask now], [], [], [], 100⟩

/-- C1 counterexample: with a record at updated_at 0, queueing an update
(operation timestamp 1) and then a delete (operation timestamp 2) and running
a full sync at time 10 ends with is_deleted = 0: the delete is discarded as a
conflict instead of being applied last. -/
theorem update_then_delete_sync_cex :
    (scenarioDB 0 1 2).sync_queue.map (fun q => (q.operation, q.operation_timestamp)) =
      [(Op.update, 1), (Op.delete, 2)] ∧
    (sync hzero 50 (scenarioDB 0 1 2) 10 [] 0 1 (some 99)).2.tasks = [finalTask 10] ∧
    (finalTask 10).is_deleted = 0 ∧
    (sync hzero 50 (scenarioDB 0 1 2) 10 [] 0 1 (some 99)).1.conflicts.length = 1 :=
  ⟨rfl, rfl, rfl, rfl⟩

/-- C1 amended: the queue is drained in non-decreasing operation-timestamp
order per record (the update is ordered before the delete), but applying the
update stamps the record's updated_at with the sync wall-clock time; the
later delete then loses last-write-wins against that refreshed timestamp
whenever the sync runs strictly after T2, so it is discarded as a conflict
and the final record has is_deleted = 0 rather than 1. -/
theorem update_then_delete_discarded_as_conflict (t0 t1 t2 now : Nat)
    (h01 : t0 ≤ t1) (h12 : t1 < t2) (h2n : t2 < now) :
    QueueOrder (scenarioUpdate t1) (scenarioDelete t2) ∧
    processBatch (scenarioDB t0 t1 t2) now [scenarioUpdate t1, scenarioDelete t2] 1 =
      ({ mappings := [], conflicts := [(1, finalTask now)], processed := 2, failed := 0 },
       dbFin now) := by
  constructor
  · unfold QueueOrder scenarioUpdate scenarioDelete
    dsimp only
    omega
  · have hA : processItem (scenarioDB t0 t1 t2) now (scenarioUpdate t1)
        (safeParseJSON (scenarioUpdate t1).data) 1 = .ok ({}, dbMid t1 t2 now) :=
      processItem_local_win (scenarioDB t0 t1 t2) now (scenarioUpdate t1) 1 (scenarioTask t0)
        (.inl rfl) rfl (resolveConflictSide_update_of_ge h01)
    rw [processBatch_cons_ok _ _ _ _ _ _ _ hA]
    have hB : updateSyncStatus (dbMid t1 t2 now) now (scenarioUpdate t1).task_id .synced 1
        (({} : ItemResult).serverDataServerId) = dbFin now := rfl
    rw [hB]
    have hC : processItem (dbFin now) now (scenarioDelete t2)
        (safeParseJSON (scenarioDelete t2).data) 1 =
        .ok ({ conflict := some ((scenarioDelete t2).task_id, finalTask now) }, dbFin now) :=
      processItem_server_win (dbFin now) now (scenarioDelete t2) 1 (finalTask now)
        (.inr rfl) rfl (resolveConflictSide_of_lt h2n Op.delete)
    rw [processBatch_cons_ok _ _ _ _ _ _ _ hC]
    rfl

/-- C1 amended, witnessed at timestamps 0 ≤ 1 < 2 < 10. -/
theorem update_then_delete_discarded_as_conflict_witness :
    processBatch (scenarioDB 0 1 2) 10 [scenarioUpdate 1, scenarioDelete 2] 1 =
      ({ mappings := [], conflicts := [(1, finalTask 10)], processed := 2, failed := 0 },
       dbFin 10) :=
  (update_then_delete_discarded_as_conflict 0 1 2 10 (by decide) (by decide) (by decide)).2

/-- The canonical entry list is a permutation of the projected batch. -/
theorem canonicalEntries_perm (items : List QueueItem) :
    (canonicalEntries items).Perm (items.map checksumEntry) :=
  List.perm_insertionSort EntryOrder _

/-- The canonical entry list is sorted by identifier. -/
theorem canonicalEntries_sorted (items : List QueueItem) :
    List.Pairwise EntryOrder (canonicalEntries items) :=
  List.sorted_insertionSort EntryOrder _

/-- Two permuted batches with duplicate-free identifiers have the same
canonical serialization. -/
theorem canonicalEntries_eq_of_perm {l l' : List QueueItem} (hperm : l.Perm l')
    (hnd : (l.map QueueItem.id).Nodup) :
    canonicalEntries l = canonicalEntries l' := by
  have hmap : (l.map checksumEntry).Perm (l'.map checksumEntry) := hperm.map _
  have hids : (l.map checksumEntry).map ChecksumEntry.id = l.map QueueItem.id := by
    rw [List.map_map]; rfl
  have hnd1 : ((l.map checksumEntry).map ChecksumEntry.id).Nodup := by
    rw [hids]; exact hnd
  refine List.Perm.eq_of_sorted ?_ (canonicalEntries_sorted l) (canonicalEntries_sorted l')
    ((canonicalEntries_perm l).trans (hmap.trans (canonicalEntries_perm l').symm))
  intro a b ha hb hab hba
  have ha' : a ∈ l.map checksumEntry := (canonicalEntries_perm l).mem_iff.mp ha
  have hb' : b ∈ l.map checksumEntry :=
    hmap.symm.subset ((canonicalEntries_perm l').subset hb)
  exact List.inj_on_of_nodup_map hnd1 ha' hb' (Nat.le_antisymm hab hba)

/-- C9: the batch fingerprint is computed over the canonical serialization of
(id, task id, kind, payload) sorted by operation id, so for batches with
duplicate-free operation ids it is invariant under any permutation of the
members; and when the digest function is collision-free, changing any
member's serialized payload changes the fingerprint. -/
theorem batchChecksum_order_invariant_payload_sensitive {β : Type}
    (h : List ChecksumEntry → β) (l l' : List QueueItem) :
    (l.Perm l' → (l.map QueueItem.id).Nodup →
      generateBatchChecksum h l = generateBatchChecksum h l') ∧
    (∀ (i : Nat) (hi : i < l.length) (d : RawData),
      Function.Injective h → (l.map QueueItem.id).Nodup →
      rawString d ≠ rawString (l.get ⟨i, hi⟩).data →
      generateBatchChecksum h (l.set i { l.get ⟨i, hi⟩ with data := d }) ≠
        generateBatchChecksum h l) := by
  constructor
  · intro hperm hnd
    unfold generateBatchChecksum
    rw [canonicalEntries_eq_of_perm hperm hnd]
  · intro i hi d hinj hnd hneq hEq
    unfold generateBatchChecksum at hEq
    have hc : canonicalEntries (l.set i { l.get ⟨i, hi⟩ with data := d }) = canonicalEntries l :=
      hinj hEq
    have hmem : ({ l.get ⟨i, hi⟩ with data := d } : QueueItem) ∈
        l.set i { l.get ⟨i, hi⟩ with data := d } :=
      List.mem_set l i hi _
    have hmem2 : checksumEntry { l.get ⟨i, hi⟩ with data := d } ∈
        canonicalEntries (l.set i { l.get ⟨i, hi⟩ with data := d }) :=
      (canonicalEntries_perm _).mem_iff.mpr (List.mem_map_of_mem _ hmem)
    rw [hc] at hmem2
    have hmem3 : checksumEntry { l.get ⟨i, hi⟩ with data := d } ∈ l.map checksumEntry :=
      (canonicalEntries_perm l).mem_iff.mp hmem2
    obtain ⟨q, hq, hqe⟩ := List.mem_map.mp hmem3
    have hid : q.id = (l.get ⟨i, hi⟩).id := by
      have := congrArg ChecksumEntry.id hqe
      simpa [checksumEntry] using this
    have hql : q = l.get ⟨i, hi⟩ :=
      List.inj_on_of_nodup_map hnd hq (l.get_mem i hi) hid
    have hdata : rawString q.data = rawString d := by
      have := congrArg ChecksumEntry.data hqe
      simpa [checksumEntry] using this
    rw [hql] at hdata
    exact hneq hdata.symm

/-- C9 witnessed with the identity digest on a two-element batch. -/
theorem batchChecksum_order_invariant_payload_sensitive_witness :
    generateBatchChecksum (fun l => l) [qW1, qW2] =
      generateBatchChecksum (fun l => l) [qW2, qW1] ∧
    generateBatchChecksum (fun l => l) [{ qW1 with data := .malformed "z" }, qW2] ≠
      generateBatchChecksum (fun l => l) [qW1, qW2] := by
  constructor
  · exact (batchChecksum_order_invariant_payload_sensitive (fun l => l) [qW1, qW2]
      [qW2, qW1]).1 (by decide) (by decide)
  · exact (batchChecksum_order_invariant_payload_sensitive (fun l => l) [qW1, qW2] []).2
      0 (by decide) (.malformed "z") (fun a b hab => hab) (by decide) (by decide)

end SyncService
